import Mathlib

/-
Verification of the Arduino TLE75008-ESD driver
(src/TLE75008_ESD.h, src/TLE75008_ESD.cpp).

Shallow embedding conventions:
* C machine integers become Nat, with an explicit reduction mod 2^8 or
  2^16 at every point where the C code narrows a value to uint8_t or
  uint16_t (function entry for uint8_t parameters, the tx/rx values of
  the 16-bit SPI frame function, masked field extractions).
* The SPI bus peer (the chip on the other end of MOSI/MISO) is an
  abstract oracle step : s -> Nat -> s x Nat mapping a device state and
  a transmitted 16-bit frame to the next device state and the 16 bits
  clocked back during that same frame.
* The observable effects of a driver call are collected in a trace of
  pin-level events: one chip-select-framed 16-bit exchange, a write to
  the IDLE (mode-control) pin, and a settle delay in microseconds.
-/

set_option maxRecDepth 8192

namespace TLE75008

/-- Pin-level events produced by the driver.  `xfer t` is one complete
16-bit SPI exchange (chip select asserted, 16 clocks transmitting `t`
MSB first, chip select released), `idleSet b` is a digitalWrite of the
IDLE mode-control pin, `delayUs n` is delayMicroseconds(n). -/
inductive Ev where
  | xfer (tx : Nat)
  | idleSet (level : Bool)
  | delayUs (n : Nat)
deriving DecidableEq, Repr

/-- The world a driver instance acts on: the state of the bus peer, the
current level of the IDLE pin, and the trace of events emitted so far. -/
structure World (σ : Type) where
  dev : σ
  idleLevel : Bool
  trace : List Ev

/-- TLE75008_ESD::spiTransfer16 (TLE75008_ESD.cpp lines 218-244): one
16-bit exchange.  tx is narrowed to uint16_t; the received uint16_t is
whatever the device clocks out during these 16 SCLK cycles. -/
def spiTransfer16 {σ : Type} (step : σ → Nat → σ × Nat) (w : World σ)
    (txData : Nat) : World σ × Nat :=
  let txData := txData % 65536
  let out := step w.dev txData
  let rxData := out.2 % 65536
  ({ w with dev := out.1, trace := w.trace ++ [Ev.xfer txData] }, rxData)

/-- digitalWrite on the IDLE (mode-control) pin. -/
def digitalWriteIdle {σ : Type} (w : World σ) (level : Bool) : World σ :=
  { w with idleLevel := level, trace := w.trace ++ [Ev.idleSet level] }

/-- delayMicroseconds(n). -/
def delayMicroseconds {σ : Type} (w : World σ) (n : Nat) : World σ :=
  { w with trace := w.trace ++ [Ev.delayUs n] }

/- Register addresses, TLE75008_ESD.cpp lines 21-38.  The driver
combines the two datasheet sub-fields as address = (ADDR0 << 2) | ADDR1. -/

def ADDR0_OUT : Nat := 0x0
def ADDR0_MAPIN0 : Nat := 0x1
def ADDR0_MAPIN1 : Nat := 0x2
def ADDR0_INST : Nat := 0x1
def ADDR0_DIAG_IOL : Nat := 0x2
def ADDR0_DIAG_OSM : Nat := 0x2
def ADDR0_HWCR : Nat := 0x3
def ADDR0_HWCR_OCL : Nat := 0x3

def REG_OUT : Nat := (ADDR0_OUT <<< 2) ||| 0x0
def REG_MAPIN0 : Nat := (ADDR0_MAPIN0 <<< 2) ||| 0x0
def REG_MAPIN1 : Nat := (ADDR0_MAPIN1 <<< 2) ||| 0x1
def REG_INST : Nat := (ADDR0_INST <<< 2) ||| 0x2
def REG_DIAG_IOL : Nat := (ADDR0_DIAG_IOL <<< 2) ||| 0x0
def REG_DIAG_OSM : Nat := (ADDR0_DIAG_OSM <<< 2) ||| 0x1
def REG_HWCR : Nat := (ADDR0_HWCR <<< 2) ||| 0x0
def REG_HWCR_OCL : Nat := (ADDR0_HWCR_OCL <<< 2) ||| 0x1

/-- TLE75008_ESD::makeAddress (TLE75008_ESD.h lines 139-141): combine
the 4-bit ADDR0 and the 2-bit ADDR1 sub-fields into one 6-bit address. -/
def makeAddress (addr0 addr1 : Nat) : Nat :=
  ((addr0 &&& 0x0F) <<< 2) ||| (addr1 &&& 0x03)

/-- TLE75008_ESD::writeRegister (TLE75008_ESD.cpp lines 247-263):
frame = 0x8000 | ((address << 8) & 0x3F00) | value, sent once, followed
by one dummy zero frame whose response is discarded. -/
def writeRegister {σ : Type} (step : σ → Nat → σ × Nat) (w : World σ)
    (address value : Nat) : World σ :=
  let address := address % 256
  let value := value % 256
  let cmd := 0x8000
  let cmd := cmd ||| ((address <<< 8) &&& 0x3F00)
  let cmd := cmd ||| value
  let r1 := spiTransfer16 step w cmd
  let r2 := spiTransfer16 step r1.1 0x0000
  r2.1

/-- TLE75008_ESD::readRegister (TLE75008_ESD.cpp lines 266-292):
read-request frame 0x4000 | ((address << 8) & 0x3F00) | 0x02, then one
zero frame whose low 8 response bits are the value, then one zero drain
frame whose response is discarded. -/
def readRegister {σ : Type} (step : σ → Nat → σ × Nat) (w : World σ)
    (address : Nat) : World σ × Nat :=
  let address := address % 256
  let cmd := 0x4000
  let cmd := cmd ||| ((address <<< 8) &&& 0x3F00)
  let cmd := cmd ||| 0x0002
  let r1 := spiTransfer16 step w cmd
  let r2 := spiTransfer16 step r1.1 0x0000
  let value := r2.2 &&& 0x00FF
  let r3 := spiTransfer16 step r2.1 0x0000
  (r3.1, value)

/-- TLE75008_ESD::readStandardDiagnosis (TLE75008_ESD.cpp lines
178-198): send the reserved request frame 0x4002, discard its response,
then one zero frame whose full 16-bit response is returned. -/
def readStandardDiagnosis {σ : Type} (step : σ → Nat → σ × Nat)
    (w : World σ) : World σ × Nat :=
  let r1 := spiTransfer16 step w 0x4002
  let r2 := spiTransfer16 step r1.1 0x0000
  (r2.1, r2.2)

/-- TLE75008_ESD::readOutputs (TLE75008_ESD.cpp lines 126-128). -/
def readOutputs {σ : Type} (step : σ → Nat → σ × Nat) (w : World σ) :
    World σ × Nat :=
  readRegister step w REG_OUT

/-- TLE75008_ESD::writeOutputs (TLE75008_ESD.cpp lines 132-134). -/
def writeOutputs {σ : Type} (step : σ → Nat → σ × Nat) (w : World σ)
    (mask : Nat) : World σ :=
  writeRegister step w REG_OUT mask

/-- TLE75008_ESD::setChannel (TLE75008_ESD.cpp lines 138-146): bounds
check on the uint8_t channel, then read-modify-write of OUT.  Both
readOutputs results and 1 << channel (channel <= 7 here) are below 256,
so the uint8_t narrowings are exact; 0xFF ^^^ (1 <<< channel) is the
8-bit image of the C expression ~(1 << channel). -/
def setChannel {σ : Type} (step : σ → Nat → σ × Nat) (w : World σ)
    (channel : Nat) (isOn : Bool) : World σ :=
  let channel := channel % 256
  if 7 < channel then w else
  let r := readOutputs step w
  let current := r.2
  let current := if isOn then current ||| (1 <<< channel)
                 else current &&& (0xFF ^^^ (1 <<< channel))
  writeOutputs step r.1 current

/-- TLE75008_ESD::toggleOutput (TLE75008_ESD.cpp lines 150-160): same
body as setChannel after first decrementing the uint8_t channel
argument (so 0 wraps to 255 and fails the bounds check). -/
def toggleOutput {σ : Type} (step : σ → Nat → σ × Nat) (w : World σ)
    (channel : Nat) (isOn : Bool) : World σ :=
  let channel := channel % 256
  let channel := (channel + 255) % 256
  if 7 < channel then w else
  let r := readOutputs step w
  let current := r.2
  let current := if isOn then current ||| (1 <<< channel)
                 else current &&& (0xFF ^^^ (1 <<< channel))
  writeOutputs step r.1 current

/-- TLE75008_ESD::clearAllErrors (TLE75008_ESD.cpp lines 163-167). -/
def clearAllErrors {σ : Type} (step : σ → Nat → σ × Nat) (w : World σ) :
    World σ :=
  writeRegister step w REG_HWCR_OCL 0xFF

/-- TLE75008_ESD::clearError (TLE75008_ESD.cpp lines 170-174). -/
def clearError {σ : Type} (step : σ → Nat → σ × Nat) (w : World σ)
    (channel : Nat) : World σ :=
  let channel := channel % 256
  if 7 < channel then w else
  let mask := (1 <<< channel) % 256
  writeRegister step w REG_HWCR_OCL mask

/-- TLE75008_ESD::enterSleep (TLE75008_ESD.cpp lines 101-109): write
OUT = 0, then drive the IDLE pin low, then settle for 100 us. -/
def enterSleep {σ : Type} (step : σ → Nat → σ × Nat) (w : World σ) :
    World σ :=
  let w := writeRegister step w REG_OUT 0x00
  let w := digitalWriteIdle w false
  delayMicroseconds w 100

/-- TLE75008_ESD::enterActive (TLE75008_ESD.cpp lines 112-123): drive
the IDLE pin high, settle 50 us, then read-modify-write HWCR with bit 7
forced set. -/
def enterActive {σ : Type} (step : σ → Nat → σ × Nat) (w : World σ) :
    World σ :=
  let w := digitalWriteIdle w true
  let w := delayMicroseconds w 50
  let r := readRegister step w REG_HWCR
  let hwcr := r.2 ||| 0x80
  writeRegister step r.1 REG_HWCR hwcr

/-- Modelled from the spec: the mock bus peer that the testable
properties are stated against (spec section 6 response latency, section
8 scenarios).  It holds an 8-bit register file and the one-frame
response pipeline: each exchange answers the previous command; a write
frame (bits 15:14 = 10) stores its payload at the addressed register; a
read-request frame (bits 15:14 = 01) queues the addressed register
value as the next response; any other frame queues zero. -/
structure Mock where
  regs : Nat → Nat
  pending : Nat

/-- Point update of a register file. -/
def updReg (r : Nat → Nat) (a v : Nat) : Nat → Nat :=
  fun x => if x = a then v else r x

/-- One exchange of the mock device. -/
def mockStep (d : Mock) (tx : Nat) : Mock × Nat :=
  let rx := d.pending
  let top := tx / 0x4000
  let a := (tx / 0x100) % 0x40
  if top = 2 then
    (⟨updReg d.regs a (tx % 0x100), 0⟩, rx)
  else if top = 1 then
    (⟨d.regs, d.regs a⟩, rx)
  else
    (⟨d.regs, 0⟩, rx)

/-- The 16-bit frames transmitted in a trace, in order. -/
def txFrames : List Ev → List Nat
  | [] => []
  | Ev.xfer t :: es => t :: txFrames es
  | Ev.idleSet _ :: es => txFrames es
  | Ev.delayUs _ :: es => txFrames es

theorem txFrames_append (l1 l2 : List Ev) :
    txFrames (l1 ++ l2) = txFrames l1 ++ txFrames l2 := by
  induction l1 with
  | nil => rfl
  | cons e es ih => cases e <;> simp [txFrames, ih]

theorem updReg_self (r : Nat → Nat) (a v : Nat) : updReg r a v a = v := by
  simp [updReg]

theorem updReg_other (r : Nat → Nat) (a v x : Nat) (h : x ≠ a) :
    updReg r a v x = r x := by
  simp [updReg, h]

/- Finite bit-arithmetic facts about the frame fields, checked by
exhaustive evaluation over the 8-bit or 6-bit ranges involved. -/

theorem shift_mask_eq : ∀ a, a < 256 →
    (a <<< 8) &&& 0x3F00 = (a &&& 0x3F) <<< 8 := by decide

theorem and3F_eq : ∀ a, a < 64 → a &&& 0x3F = a := by decide

theorem or_high_write : ∀ a, a < 64 →
    0x8000 ||| (a <<< 8) = (0x80 + a) <<< 8 := by decide

theorem or_high_read : ∀ a, a < 64 →
    0x4000 ||| (a <<< 8) = (0x40 + a) <<< 8 := by decide

/-- Appending 8 low bits to a byte-aligned value with bitwise or is
addition. -/
theorem shiftLeft_or_low (x c : Nat) (hc : c < 256) :
    (x <<< 8) ||| c = x * 256 + c := by
  have h256 : (256 : Nat) = 2 ^ 8 := by norm_num
  apply Nat.eq_of_testBit_eq
  intro j
  have hrhs : x * 256 + c = 2 ^ 8 * x + c := by omega
  rw [hrhs, Nat.testBit_mul_pow_two_add x (h256 ▸ hc) j, Nat.testBit_or,
    Nat.testBit_shiftLeft]
  by_cases hj : j < 8
  · have : ¬ (j ≥ 8) := by omega
    simp [hj, this]
  · have h8j : j ≥ 8 := by omega
    have hcj : c.testBit j = false := by
      apply Nat.testBit_lt_two_pow
      calc c < 256 := hc
        _ = 2 ^ 8 := h256
        _ ≤ 2 ^ j := Nat.pow_le_pow_right (by norm_num) h8j
    simp [hj, h8j, hcj]

/-- The write frame for a 6-bit address and an 8-bit value, in additive
form. -/
theorem write_frame_add (a v : Nat) (ha : a < 64) (hv : v < 256) :
    (0x8000 ||| (a <<< 8)) ||| v = 0x8000 + a * 256 + v := by
  rw [or_high_write a ha, shiftLeft_or_low _ _ hv]
  omega

/-- The read-request frame for a 6-bit address, in additive form. -/
theorem read_frame_add (a : Nat) (ha : a < 64) :
    (0x4000 ||| (a <<< 8)) ||| 2 = 0x4000 + a * 256 + 2 := by
  rw [or_high_read a ha, shiftLeft_or_low _ _ (by norm_num)]
  omega

theorem and_ff_eq_mod (x : Nat) : x &&& 0xFF = x % 256 := by
  apply Nat.eq_of_testBit_eq
  intro j
  rw [Nat.testBit_and]
  have h : (0xFF : Nat) = 2 ^ 8 - 1 := by norm_num
  have h2 : (256 : Nat) = 2 ^ 8 := by norm_num
  rw [h, h2, Nat.testBit_two_pow_sub_one, Nat.testBit_mod_two_pow,
    Bool.and_comm]

/- Closed forms for one writeRegister / readRegister call over an
arbitrary bus peer. -/

theorem writeRegister_spec {σ : Type} (step : σ → Nat → σ × Nat)
    (w : World σ) (a v : Nat) (ha : a < 256) (hv : v < 256) :
    writeRegister step w a v =
      { dev := (step (step w.dev ((0x8000 ||| ((a &&& 0x3F) <<< 8)) ||| v)).1 0).1,
        idleLevel := w.idleLevel,
        trace := w.trace ++ [Ev.xfer ((0x8000 ||| ((a &&& 0x3F) <<< 8)) ||| v),
                             Ev.xfer 0] } := by
  have hmod : a % 256 = a := Nat.mod_eq_of_lt ha
  have hvmod : v % 256 = v := Nat.mod_eq_of_lt hv
  have h63 : a &&& 0x3F < 64 :=
    Nat.lt_of_le_of_lt Nat.and_le_right (by norm_num)
  have hb : (0x8000 ||| ((a &&& 0x3F) <<< 8)) ||| v < 65536 := by
    rw [write_frame_add _ _ h63 hv]; omega
  obtain ⟨d0, i0, t0⟩ := w
  simp only [writeRegister, spiTransfer16, hmod, hvmod, shift_mask_eq a ha]
  rw [Nat.mod_eq_of_lt hb]
  simp [List.append_assoc]

theorem readRegister_spec {σ : Type} (step : σ → Nat → σ × Nat)
    (w : World σ) (a : Nat) (ha : a < 256) :
    readRegister step w a =
      ({ dev := (step (step (step w.dev
            ((0x4000 ||| ((a &&& 0x3F) <<< 8)) ||| 2)).1 0).1 0).1,
         idleLevel := w.idleLevel,
         trace := w.trace ++ [Ev.xfer ((0x4000 ||| ((a &&& 0x3F) <<< 8)) ||| 2),
                              Ev.xfer 0, Ev.xfer 0] },
       (step (step w.dev ((0x4000 ||| ((a &&& 0x3F) <<< 8)) ||| 2)).1 0).2 % 256) := by
  have hmod : a % 256 = a := Nat.mod_eq_of_lt ha
  have h63 : a &&& 0x3F < 64 :=
    Nat.lt_of_le_of_lt Nat.and_le_right (by norm_num)
  have hb : (0x4000 ||| ((a &&& 0x3F) <<< 8)) ||| 2 < 65536 := by
    rw [read_frame_add _ h63]; omega
  obtain ⟨d0, i0, t0⟩ := w
  simp only [readRegister, spiTransfer16, hmod, shift_mask_eq a ha]
  rw [Nat.mod_eq_of_lt hb]
  simp [List.append_assoc, and_ff_eq_mod, Nat.mod_mod_of_dvd _ (by norm_num : (256:Nat) ∣ 65536)]

/- The mock device, one exchange at a time. -/

theorem mockStep_noop (d : Mock) : mockStep d 0 = (⟨d.regs, 0⟩, d.pending) := rfl

theorem mockStep_write (d : Mock) (A c : Nat) (hA : A < 64) (hc : c < 256) :
    mockStep d ((0x8000 ||| (A <<< 8)) ||| c) = (⟨updReg d.regs A c, 0⟩, d.pending) := by
  rw [write_frame_add A c hA hc]
  have h1 : (0x8000 + A * 256 + c) / 0x4000 = 2 := by omega
  have h2 : (0x8000 + A * 256 + c) / 0x100 % 0x40 = A := by omega
  have h3 : (0x8000 + A * 256 + c) % 0x100 = c := by omega
  simp [mockStep, h1, h2, h3]

theorem mockStep_read (d : Mock) (A : Nat) (hA : A < 64) :
    mockStep d ((0x4000 ||| (A <<< 8)) ||| 2) = (⟨d.regs, d.regs A⟩, d.pending) := by
  rw [read_frame_add A hA]
  have h1 : (0x4000 + A * 256 + 2) / 0x4000 = 1 := by omega
  have h2 : (0x4000 + A * 256 + 2) / 0x100 % 0x40 = A := by omega
  simp [mockStep, h1, h2]

theorem writeRegister_mock (w : World Mock) (A v : Nat) (hA : A < 64)
    (hv : v < 256) :
    writeRegister mockStep w A v =
      { dev := ⟨updReg w.dev.regs A v, 0⟩,
        idleLevel := w.idleLevel,
        trace := w.trace ++ [Ev.xfer ((0x8000 ||| (A <<< 8)) ||| v), Ev.xfer 0] } := by
  rw [writeRegister_spec mockStep w A v (by omega) hv, and3F_eq A hA]
  simp [mockStep_write w.dev A v hA hv, mockStep_noop]

theorem readRegister_mock (w : World Mock) (A : Nat) (hA : A < 64)
    (hr : w.dev.regs A < 256) :
    readRegister mockStep w A =
      ({ dev := ⟨w.dev.regs, 0⟩,
         idleLevel := w.idleLevel,
         trace := w.trace ++ [Ev.xfer ((0x4000 ||| (A <<< 8)) ||| 2),
                              Ev.xfer 0, Ev.xfer 0] },
       w.dev.regs A) := by
  rw [readRegister_spec mockStep w A (by omega), and3F_eq A hA]
  simp [mockStep_read w.dev A hA, mockStep_noop, Nat.mod_eq_of_lt hr]

/- Concrete worlds used to instantiate the theorems below. -/

/-- A mock world with all registers zero and an empty trace. -/
def W0 : World Mock := ⟨⟨fun _ => 0, 0⟩, true, []⟩

/-- A mock world preloaded with value 0x05 at address 0x09 (DIAG_OSM). -/
def W9 : World Mock := ⟨⟨updReg (fun _ => 0) 0x09 0x05, 0⟩, true, []⟩

/-- C1: evaluation of the combined 6-bit register address constants
(TLE75008_ESD.cpp lines 21-38).  OUT, MAPIN0, INST, DIAG_IOL, HWCR and
HWCR_OCL match the claimed map, but REG_MAPIN1 and REG_DIAG_OSM both
evaluate to 0x09: the two constants alias instead of being distinct
sub-fields of group 0x02, so the MAPIN1 default written during device
initialization actually lands on DIAG_OSM. -/
theorem C1_register_address_map :
    REG_OUT = 0x00 ∧ REG_MAPIN0 = 0x04 ∧ REG_INST = 0x06 ∧
    REG_DIAG_IOL = 0x08 ∧ REG_HWCR = 0x0C ∧ REG_HWCR_OCL = 0x0D ∧
    REG_MAPIN1 = 0x09 ∧ REG_DIAG_OSM = 0x09 ∧
    REG_MAPIN1 = REG_DIAG_OSM ∧ REG_MAPIN1 ≠ REG_DIAG_IOL ∧
    makeAddress 0x3 0x1 = 0x0D := by decide

/-- C2: over any bus peer, writeRegister(a, v) with 8-bit a and v makes
exactly two 16-bit exchanges: first the write frame with bits 15:14 =
10, bits 13:8 = a and 0x3F, bits 7:0 = v, then a zero no-op frame; the
device state advances by exactly those two exchanges and both responses
are discarded. -/
theorem C2_writeRegister_two_exchanges {σ : Type} (step : σ → Nat → σ × Nat)
    (w : World σ) (a v : Nat) (ha : a < 256) (hv : v < 256) :
    txFrames (writeRegister step w a v).trace
      = txFrames w.trace ++ [(0x8000 ||| ((a &&& 0x3F) <<< 8)) ||| v, 0x0000]
    ∧ (writeRegister step w a v).dev
      = (step (step w.dev ((0x8000 ||| ((a &&& 0x3F) <<< 8)) ||| v)).1 0x0000).1 := by
  rw [writeRegister_spec step w a v ha hv]
  exact ⟨by simp [txFrames_append, txFrames], rfl⟩

/-- C2 witness: concrete instance at address 0x0C, value 0x55, against
the mock world W0. -/
theorem C2_writeRegister_two_exchanges_witness :
    (0x0C : Nat) < 256 ∧ (0x55 : Nat) < 256 ∧
    (txFrames (writeRegister mockStep W0 0x0C 0x55).trace
       = txFrames W0.trace ++ [(0x8000 ||| ((0x0C &&& 0x3F) <<< 8)) ||| 0x55, 0x0000]
     ∧ (writeRegister mockStep W0 0x0C 0x55).dev
       = (mockStep (mockStep W0.dev ((0x8000 ||| ((0x0C &&& 0x3F) <<< 8)) ||| 0x55)).1 0x0000).1) :=
  ⟨by decide, by decide,
    C2_writeRegister_two_exchanges mockStep W0 0x0C 0x55 (by decide) (by decide)⟩

/-- C3: over any bus peer, readRegister(a) with 8-bit a makes exactly
three 16-bit exchanges: the read-request frame with bits 15:14 = 01,
bits 13:8 = a and 0x3F, bits 1:0 = 10, then two zero frames; the
returned byte is the low 8 bits of the response to the second
exchange. -/
theorem C3_readRegister_three_exchanges {σ : Type} (step : σ → Nat → σ × Nat)
    (w : World σ) (a : Nat) (ha : a < 256) :
    txFrames (readRegister step w a).1.trace
      = txFrames w.trace ++ [(0x4000 ||| ((a &&& 0x3F) <<< 8)) ||| 0x02, 0x0000, 0x0000]
    ∧ (readRegister step w a).2
      = (step (step w.dev ((0x4000 ||| ((a &&& 0x3F) <<< 8)) ||| 0x02)).1 0x0000).2 % 256 := by
  rw [readRegister_spec step w a ha]
  exact ⟨by simp [txFrames_append, txFrames], rfl⟩

/-- C3 witness: scenario C, reading DIAG_OSM (0x09) against the mock
preloaded with 0x05 there returns 0x05 after exactly three exchanges. -/
theorem C3_readRegister_three_exchanges_witness :
    (0x09 : Nat) < 256 ∧
    (txFrames (readRegister mockStep W9 0x09).1.trace
       = txFrames W9.trace ++ [(0x4000 ||| ((0x09 &&& 0x3F) <<< 8)) ||| 0x02, 0x0000, 0x0000]
     ∧ (readRegister mockStep W9 0x09).2
       = (mockStep (mockStep W9.dev ((0x4000 ||| ((0x09 &&& 0x3F) <<< 8)) ||| 0x02)).1 0x0000).2 % 256)
    ∧ (readRegister mockStep W9 0x09).2 = 0x05 :=
  ⟨by decide, C3_readRegister_three_exchanges mockStep W9 0x09 (by decide), by decide⟩

/-- C4: readStandardDiagnosis makes exactly two 16-bit exchanges, the
reserved request frame 0x4002 (whose response is discarded) and one
zero drain frame, and returns the full 16-bit response of the second
exchange. -/
theorem C4_readStandardDiagnosis_two_exchanges {σ : Type}
    (step : σ → Nat → σ × Nat) (w : World σ) :
    txFrames (readStandardDiagnosis step w).1.trace
      = txFrames w.trace ++ [0x4002, 0x0000]
    ∧ (readStandardDiagnosis step w).2
      = (step (step w.dev 0x4002).1 0x0000).2 % 65536 := by
  obtain ⟨d0, i0, t0⟩ := w
  exact ⟨by simp [readStandardDiagnosis, spiTransfer16, txFrames_append, txFrames],
         by simp [readStandardDiagnosis, spiTransfer16]⟩

/-- C5: for every out-of-range uint8_t channel index (8 to 255) and
either switch direction, setChannel returns the world unchanged: no
exchange, no pin write, no device state change. -/
theorem C5_setChannel_out_of_range_noop {σ : Type} (step : σ → Nat → σ × Nat)
    (w : World σ) (c : Nat) (isOn : Bool) (h7 : 7 < c) (h256 : c < 256) :
    setChannel step w c isOn = w := by
  simp only [setChannel]
  rw [Nat.mod_eq_of_lt h256, if_pos h7]

/-- C5 witness: setChannel(8, true) on the mock world W0 is a no-op. -/
theorem C5_setChannel_out_of_range_noop_witness :
    7 < 8 ∧ (8 : Nat) < 256 ∧ setChannel mockStep W0 8 true = W0 :=
  ⟨by decide, by decide,
    C5_setChannel_out_of_range_noop mockStep W0 8 true (by decide) (by decide)⟩

/- Helpers for the read-modify-write claims. -/

theorem one_shift_lt (i : Nat) (hi : i < 8) : (1 <<< i) < 256 := by
  have h : (1 : Nat) <<< i = 2 ^ i := by rw [Nat.shiftLeft_eq, one_mul]
  rw [h]
  calc 2 ^ i ≤ 2 ^ 7 := Nat.pow_le_pow_right (by norm_num) (by omega)
    _ < 256 := by norm_num

theorem or_lt_256 (x y : Nat) (hx : x < 256) (hy : y < 256) :
    x ||| y < 256 := by
  have h : x ||| y < 2 ^ 8 :=
    Nat.or_lt_two_pow (by simpa using hx) (by simpa using hy)
  simpa using h

theorem and_lt_256 (x y : Nat) (hx : x < 256) : x &&& y < 256 :=
  Nat.lt_of_le_of_lt Nat.and_le_left hx

/-- Bitwise effect of setting or clearing one bit of an 8-bit value,
checked exhaustively. -/
theorem bit_update_spec : ∀ m, m < 256 → ∀ i, i < 8 → ∀ k, k < 8 →
    ((m ||| (1 <<< i)).testBit k = if k = i then true else m.testBit k)
    ∧ ((m &&& (0xFF ^^^ (1 <<< i))).testBit k
        = if k = i then false else m.testBit k) := by decide

/-- Closed form of one setChannel call against the mock: the three
exchanges of the OUT read, then the two exchanges of the OUT write, and
the register file updated at OUT only. -/
theorem setChannel_mock (w : World Mock) (i : Nat) (isOn : Bool) (hi : i < 8)
    (hm : w.dev.regs REG_OUT < 256) :
    setChannel mockStep w i isOn =
      { dev := ⟨updReg w.dev.regs REG_OUT
          (if isOn then w.dev.regs REG_OUT ||| (1 <<< i)
           else w.dev.regs REG_OUT &&& (0xFF ^^^ (1 <<< i))), 0⟩,
        idleLevel := w.idleLevel,
        trace := w.trace ++ [Ev.xfer ((0x4000 ||| (REG_OUT <<< 8)) ||| 2),
          Ev.xfer 0, Ev.xfer 0,
          Ev.xfer ((0x8000 ||| (REG_OUT <<< 8)) |||
            (if isOn then w.dev.regs REG_OUT ||| (1 <<< i)
             else w.dev.regs REG_OUT &&& (0xFF ^^^ (1 <<< i)))),
          Ev.xfer 0] } := by
  have hi256 : i % 256 = i := Nat.mod_eq_of_lt (by omega)
  have hnot : ¬ 7 < i := by omega
  have hR : REG_OUT < 64 := by decide
  have hnew : (if isOn then w.dev.regs REG_OUT ||| (1 <<< i)
      else w.dev.regs REG_OUT &&& (0xFF ^^^ (1 <<< i))) < 256 := by
    cases isOn with
    | false => simpa using and_lt_256 _ _ hm
    | true => simpa using or_lt_256 _ _ hm (one_shift_lt i hi)
  simp only [setChannel, hi256, readOutputs, writeOutputs]
  rw [if_neg hnot, readRegister_mock w REG_OUT hR hm]
  rw [writeRegister_mock _ REG_OUT _ hR hnew]
  simp [List.append_assoc]

/-- C6: against the mock, setChannel(i, isOn) for i in 0..7 rewrites the
OUT register to the prior mask m with exactly bit i forced to isOn;
hence setChannel(i, true) then setChannel(j, false) with i different
from j touches no bit outside i and j, and from OUT = 0x00 the call
setChannel(1, true) yields OUT = 0x02. -/
theorem C6_setChannel_bit_isolation (w : World Mock) (i j m : Nat)
    (isOn : Bool) (hi : i < 8) (hj : j < 8) (hij : i ≠ j)
    (hm : w.dev.regs REG_OUT = m) (hm8 : m < 256) :
    (∀ k, k < 8 →
      ((setChannel mockStep w i isOn).dev.regs REG_OUT).testBit k
        = if k = i then isOn else m.testBit k)
    ∧ (∀ k, k < 8 → k ≠ i → k ≠ j →
      ((setChannel mockStep (setChannel mockStep w i true) j false).dev.regs
          REG_OUT).testBit k = m.testBit k)
    ∧ (isOn = true → i = 1 → m = 0 →
      (setChannel mockStep w i isOn).dev.regs REG_OUT = 0x02) := by
  have hlt : w.dev.regs REG_OUT < 256 := by rw [hm]; exact hm8
  have s1 := setChannel_mock w i true hi hlt
  refine ⟨?_, ?_, ?_⟩
  · intro k hk
    rw [setChannel_mock w i isOn hi hlt]
    cases isOn with
    | true =>
      simp only [if_true, updReg_self, hm]
      exact (bit_update_spec m hm8 i hi k hk).1
    | false =>
      simp only [if_false, updReg_self, hm]
      simpa using (bit_update_spec m hm8 i hi k hk).2
  · intro k hk hki hkj
    have hm1 : m ||| (1 <<< i) < 256 := or_lt_256 _ _ hm8 (one_shift_lt i hi)
    have hlt1 : (setChannel mockStep w i true).dev.regs REG_OUT < 256 := by
      rw [s1]; simpa [updReg_self, hm] using hm1
    rw [setChannel_mock (setChannel mockStep w i true) j false hj hlt1, s1]
    simp only [if_pos, if_neg, updReg_self, hm]
    have h2 := (bit_update_spec (m ||| (1 <<< i)) hm1 j hj k hk).2
    rw [if_neg hkj] at h2
    have h1 := (bit_update_spec m hm8 i hi k hk).1
    rw [if_neg hki] at h1
    simpa [h2] using h1
  · intro hOn hOne hZero
    subst hOn; subst hOne; subst hZero
    rw [setChannel_mock w 1 true (by omega) hlt]
    simp only [if_true, updReg_self, hm]
    decide

/-- C6 witness: scenario A on the all-zero mock world: setChannel(1,
true) turns OUT from 0x00 into 0x02. -/
theorem C6_setChannel_bit_isolation_witness :
    (1 : Nat) < 8 ∧ (0 : Nat) < 8 ∧ (1 : Nat) ≠ 0 ∧
    W0.dev.regs REG_OUT = 0 ∧ (0 : Nat) < 256 ∧
    (setChannel mockStep W0 1 true).dev.regs REG_OUT = 0x02 :=
  ⟨by decide, by decide, by decide, rfl, by decide,
    (C6_setChannel_bit_isolation W0 1 0 0 true (by decide) (by decide)
      (by decide) rfl (by decide)).2.2 rfl rfl rfl⟩

/-- Closed form of one enterActive call against the mock: IDLE pin
driven high, 50 us settle, then the HWCR read-modify-write with bit 7
forced set. -/
theorem enterActive_mock (w : World Mock) (hh : w.dev.regs REG_HWCR < 256) :
    enterActive mockStep w =
      { dev := ⟨updReg w.dev.regs REG_HWCR (w.dev.regs REG_HWCR ||| 0x80), 0⟩,
        idleLevel := true,
        trace := w.trace ++ [Ev.idleSet true, Ev.delayUs 50,
          Ev.xfer ((0x4000 ||| (REG_HWCR <<< 8)) ||| 2), Ev.xfer 0, Ev.xfer 0,
          Ev.xfer ((0x8000 ||| (REG_HWCR <<< 8)) ||| (w.dev.regs REG_HWCR ||| 0x80)),
          Ev.xfer 0] } := by
  have hR : REG_HWCR < 64 := by decide
  have hb : w.dev.regs REG_HWCR ||| 0x80 < 256 := or_lt_256 _ _ hh (by norm_num)
  simp only [enterActive, digitalWriteIdle, delayMicroseconds]
  rw [readRegister_mock
    { dev := w.dev, idleLevel := true,
      trace := w.trace ++ [Ev.idleSet true] ++ [Ev.delayUs 50] }
    REG_HWCR hR hh]
  rw [writeRegister_mock _ REG_HWCR _ hR hb]
  simp [List.append_assoc]

/-- C7: against the mock, enterActive is idempotent on HWCR: two calls
in a row leave the same final HWCR value as one call, for every 8-bit
initial HWCR value. -/
theorem C7_enterActive_idempotent (w : World Mock) (h : Nat)
    (hh : w.dev.regs REG_HWCR = h) (h8 : h < 256) :
    (enterActive mockStep (enterActive mockStep w)).dev.regs REG_HWCR
      = (enterActive mockStep w).dev.regs REG_HWCR := by
  have hlt : w.dev.regs REG_HWCR < 256 := by rw [hh]; exact h8
  have e1 := enterActive_mock w hlt
  have hlt1 : (enterActive mockStep w).dev.regs REG_HWCR < 256 := by
    rw [e1]
    simpa [updReg_self] using or_lt_256 _ _ hlt (by norm_num)
  rw [enterActive_mock (enterActive mockStep w) hlt1, e1]
  simp [updReg_self, Nat.or_assoc, Nat.or_self]

/-- C7 witness: idempotence at the all-zero mock world. -/
theorem C7_enterActive_idempotent_witness :
    W0.dev.regs REG_HWCR = 0 ∧ (0 : Nat) < 256 ∧
    (enterActive mockStep (enterActive mockStep W0)).dev.regs REG_HWCR
      = (enterActive mockStep W0).dev.regs REG_HWCR :=
  ⟨rfl, by decide, C7_enterActive_idempotent W0 0 rfl (by decide)⟩

/-- C8: clearAllErrors is exactly one register write, of 0xFF to
HWCR_OCL (one write frame plus its drain frame, nothing else), and
clearError(c) for c in 0..7 is exactly one register write of the
single-bit mask 1 <<< c to HWCR_OCL; on the mock, each updates the
HWCR_OCL cell of the register file and no other register. -/
theorem C8_clear_errors_write_hwcr_ocl {σ : Type} (step : σ → Nat → σ × Nat)
    (w : World σ) (c : Nat) (hc : c < 8) :
    txFrames (clearAllErrors step w).trace
      = txFrames w.trace ++ [(0x8000 ||| (REG_HWCR_OCL <<< 8)) ||| 0xFF, 0x0000]
    ∧ txFrames (clearError step w c).trace
      = txFrames w.trace ++ [(0x8000 ||| (REG_HWCR_OCL <<< 8)) ||| (1 <<< c), 0x0000]
    ∧ (∀ w2 : World Mock, (clearAllErrors mockStep w2).dev.regs
        = updReg w2.dev.regs REG_HWCR_OCL 0xFF)
    ∧ (∀ w2 : World Mock, (clearError mockStep w2 c).dev.regs
        = updReg w2.dev.regs REG_HWCR_OCL (1 <<< c)) := by
  have hc256 : c % 256 = c := Nat.mod_eq_of_lt (by omega)
  have hnot : ¬ 7 < c := by omega
  have hmask : (1 <<< c) % 256 = 1 <<< c := Nat.mod_eq_of_lt (one_shift_lt c hc)
  have hA64 : REG_HWCR_OCL < 64 := by decide
  have hA : REG_HWCR_OCL < 256 := by decide
  refine ⟨?_, ?_, ?_, ?_⟩
  · simp only [clearAllErrors]
    rw [writeRegister_spec step w REG_HWCR_OCL 0xFF hA (by norm_num),
      and3F_eq REG_HWCR_OCL hA64]
    simp [txFrames_append, txFrames]
  · simp only [clearError, hc256]
    rw [if_neg hnot, hmask,
      writeRegister_spec step w REG_HWCR_OCL (1 <<< c) hA (one_shift_lt c hc),
      and3F_eq REG_HWCR_OCL hA64]
    simp [txFrames_append, txFrames]
  · intro w2
    simp only [clearAllErrors]
    rw [writeRegister_mock w2 REG_HWCR_OCL 0xFF hA64 (by norm_num)]
  · intro w2
    simp only [clearError, hc256]
    rw [if_neg hnot, hmask,
      writeRegister_mock w2 REG_HWCR_OCL (1 <<< c) hA64 (one_shift_lt c hc)]

/-- C8 witness: concrete instance at channel 3 against the mock world. -/
theorem C8_clear_errors_write_hwcr_ocl_witness :
    (3 : Nat) < 8 ∧
    (txFrames (clearAllErrors mockStep W0).trace
       = txFrames W0.trace ++ [(0x8000 ||| (REG_HWCR_OCL <<< 8)) ||| 0xFF, 0x0000]
     ∧ txFrames (clearError mockStep W0 3).trace
       = txFrames W0.trace ++ [(0x8000 ||| (REG_HWCR_OCL <<< 8)) ||| (1 <<< 3), 0x0000]
     ∧ (∀ w2 : World Mock, (clearAllErrors mockStep w2).dev.regs
         = updReg w2.dev.regs REG_HWCR_OCL 0xFF)
     ∧ (∀ w2 : World Mock, (clearError mockStep w2 3).dev.regs
         = updReg w2.dev.regs REG_HWCR_OCL (1 <<< 3))) :=
  ⟨by decide, C8_clear_errors_write_hwcr_ocl mockStep W0 3 (by decide)⟩

/-- C9: enterSleep emits, in order: the two exchanges of the OUT := 0
write, then the IDLE pin driven low, then the 100 us settle delay — so
the mode line only goes low after the OUT write has completed; on the
mock the OUT register ends at 0 whatever it held before. -/
theorem C9_enterSleep_out_then_idle_low {σ : Type} (step : σ → Nat → σ × Nat)
    (w : World σ) :
    (enterSleep step w).trace
      = w.trace ++ [Ev.xfer ((0x8000 ||| (REG_OUT <<< 8)) ||| 0), Ev.xfer 0,
                    Ev.idleSet false, Ev.delayUs 100]
    ∧ (enterSleep step w).idleLevel = false
    ∧ (∀ w2 : World Mock, (enterSleep mockStep w2).dev.regs REG_OUT = 0) := by
  refine ⟨?_, ?_, ?_⟩
  · simp only [enterSleep, digitalWriteIdle, delayMicroseconds]
    rw [writeRegister_spec step w REG_OUT 0 (by decide) (by norm_num),
      and3F_eq REG_OUT (by decide)]
    simp [List.append_assoc]
  · simp only [enterSleep, digitalWriteIdle, delayMicroseconds]
  · intro w2
    simp only [enterSleep, digitalWriteIdle, delayMicroseconds]
    rw [writeRegister_mock w2 REG_OUT 0 (by decide) (by norm_num)]
    simp [updReg_self]

/-- C10: toggleOutput(0, isOn) is a silent no-op (the uint8_t decrement
wraps 0 to 255, failing the bounds check), and for c in 1..8 the call
toggleOutput(c, isOn) is exactly setChannel(c - 1, isOn). -/
theorem C10_toggleOutput_one_based {σ : Type} (step : σ → Nat → σ × Nat)
    (w : World σ) (isOn : Bool) (c : Nat) (h1 : 1 ≤ c) (h2 : c ≤ 8) :
    toggleOutput step w 0 isOn = w
    ∧ toggleOutput step w c isOn = setChannel step w (c - 1) isOn := by
  constructor
  · simp only [toggleOutput]
    have e : (0 % 256 + 255) % 256 = 255 := by norm_num
    rw [e, if_pos (by norm_num)]
  · have e1 : (c % 256 + 255) % 256 = c - 1 := by omega
    have e2 : (c - 1) % 256 = c - 1 := by omega
    simp only [toggleOutput, setChannel, e1, e2]

/-- C10 witness: toggleOutput(0) is a no-op and toggleOutput(1) equals
setChannel(0) on the mock world. -/
theorem C10_toggleOutput_one_based_witness :
    1 ≤ 1 ∧ (1 : Nat) ≤ 8 ∧
    (toggleOutput mockStep W0 0 true = W0
     ∧ toggleOutput mockStep W0 1 true = setChannel mockStep W0 (1 - 1) true) :=
  ⟨by decide, by decide,
    C10_toggleOutput_one_based mockStep W0 true 1 (by decide) (by decide)⟩

end TLE75008
